import Mathlib

/-!
# Verification of the Mandelbulb ray-marching material pipeline

A shallow embedding of `src/ray_marching_material.rs` from
`Lowband21/bevy_ray_marching_mandelbulb`: the simulation-world →
render-world extraction system (`extract_raymarching_material`) and the
uniform-buffer preparation system (`prepare_raymarching_material`),
together with the uniform-block serialization layout produced by
`encase::UniformBuffer` for the `RayMarchingMaterialUniformData` struct.

Modelling conventions:

* Every 32-bit scalar moved by the pipeline (`f32` or `u32`) is carried as
  its bit pattern, a `Nat` (meaningful values are `< 2^32`).  The pipeline
  performs no arithmetic on these values — it only copies and serializes
  them — so the bit-pattern view is exact.
* `Vec3` is a triple of such 32-bit words.
* Bevy's `Transform` is a translation plus a rotation; the systems only
  consume `transform.translation`, `transform.forward()`,
  `transform.right()` and `transform.up()`.  The rotation math lives in
  the host engine (out of scope per the spec), so the embedded `Transform`
  carries those four observable vectors directly.
* `encase` serializes with WGSL uniform address-space layout rules and
  little-endian scalars: `vec3<f32>` has alignment 16 and size 12, scalars
  have alignment 4, and the struct size is rounded up to the struct
  alignment (16).  For `RayMarchingMaterialUniformData` this gives the
  offsets: camera_position 0, camera_forward 16, camera_horizontal 32,
  camera_vertical 48, apsect_ratio 60, power 64, max_iterations 68,
  bailout 72, num_steps 76, min_dist 80, max_dist 84, zoom 88; total
  size 96.
* Bevy `Commands` are deferred but applied in submission order; the
  embedding applies them in order directly to the render-world state.
-/

namespace RayMarching

/-- A three-component vector of 32-bit words (bit patterns of a `Vec3`);
each 32-bit scalar bit pattern is carried as a `Nat`. -/
structure Vec3 where
  x : Nat
  y : Nat
  z : Nat
  deriving Repr, DecidableEq

/-- The observable outputs of a Bevy `Transform` as consumed by
`prepare_raymarching_material`: `translation`, `forward()`, `right()` and
`up()`.  The rotation arithmetic producing the basis vectors is host-engine
code (out of scope); the embedding records its results. -/
structure Transform where
  translation : Vec3
  forward : Vec3
  right : Vec3
  up : Vec3
  deriving Repr, DecidableEq

/-- The `AspectRatio` resource (field read and rebuilt by
`extract_raymarching_material`). -/
structure AspectRatio where
  aspect_ratio : Nat
  deriving Repr, DecidableEq

/-- The `MandelbulbUniforms` resource (fields read and rebuilt by
`extract_raymarching_material`). -/
structure MandelbulbUniforms where
  power : Nat
  max_iterations : Nat
  bailout : Nat
  num_steps : Nat
  min_dist : Nat
  max_dist : Nat
  zoom : Nat
  deriving Repr, DecidableEq

/-- Struct `RayMarchingMaterialUniformData` (source lines 94–108): the
`ShaderType` struct serialized into the uniform buffer.  The field name
`apsect_ratio` reproduces the source's spelling. -/
structure RayMarchingMaterialUniformData where
  camera_position : Vec3
  camera_forward : Vec3
  camera_horizontal : Vec3
  camera_vertical : Vec3
  apsect_ratio : Nat
  power : Nat
  max_iterations : Nat
  bailout : Nat
  num_steps : Nat
  min_dist : Nat
  max_dist : Nat
  zoom : Nat
  deriving Repr, DecidableEq

/-! ## Serialization: `encase::UniformBuffer::write` -/

/-- Little-endian encoding of a 32-bit word into four bytes, as `encase`
writes scalars (WebGPU buffers are little-endian). -/
def encodeWord (w : Nat) : List Nat :=
  [w % 256, w / 256 % 256, w / 65536 % 256, w / 16777216 % 256]

/-- Little-endian decoding of four bytes back into a 32-bit word. -/
def decodeWord (bs : List Nat) : Nat :=
  bs.getD 0 0 + 256 * bs.getD 1 0 + 65536 * bs.getD 2 0 + 16777216 * bs.getD 3 0

/-- Serialize a `vec3<f32>`: three little-endian scalars, 12 bytes. -/
def encodeVec3 (v : Vec3) : List Nat :=
  encodeWord v.x ++ encodeWord v.y ++ encodeWord v.z

/-- Decode a 12-byte `vec3<f32>` slice. -/
def decodeVec3 (bs : List Nat) : Vec3 :=
  ⟨decodeWord (bs.take 4), decodeWord ((bs.drop 4).take 4),
    decodeWord ((bs.drop 8).take 4)⟩

/-- A run of `k` padding bytes (encase zero-fills alignment padding). -/
def padBytes (k : Nat) : List Nat := List.replicate k 0

/-- The byte size of the serialized uniform block: 92 bytes of fields and
padding, rounded up to the struct alignment 16. -/
def uniformBlockSize : Nat := 96

/-- The bytes `encase::UniformBuffer::write` produces for a
`RayMarchingMaterialUniformData` value under WGSL uniform layout:
each `vec3<f32>` is 16-byte aligned with size 12 (so 4 padding bytes
follow each of the first three), the eight scalars pack contiguously
from offset 60, and the struct is padded to a multiple of 16. -/
def serializeUniform (d : RayMarchingMaterialUniformData) : List Nat :=
  encodeVec3 d.camera_position ++ padBytes 4 ++
  encodeVec3 d.camera_forward ++ padBytes 4 ++
  encodeVec3 d.camera_horizontal ++ padBytes 4 ++
  encodeVec3 d.camera_vertical ++
  encodeWord d.apsect_ratio ++
  encodeWord d.power ++
  encodeWord d.max_iterations ++
  encodeWord d.bailout ++
  encodeWord d.num_steps ++
  encodeWord d.min_dist ++
  encodeWord d.max_dist ++
  encodeWord d.zoom ++
  padBytes 4

/-- The sub-list of `len` bytes starting at byte offset `off`. -/
def slice (bs : List Nat) (off len : Nat) : List Nat :=
  (bs.drop off).take len

/-! ## World state -/

/-- The components of one render-world mirror entity that the two systems
touch: the `Handle<RayMarchingMaterial>` and the camera `Transform`.
A freshly spawned render-world entity has neither. -/
structure RenderEntity where
  material_handle : Option Nat
  transform : Option Transform
  deriving Repr, DecidableEq

/-- A freshly spawned render-world entity: no components. -/
def RenderEntity.empty : RenderEntity := ⟨none, none⟩

/-- The simulation-world data read by `extract_raymarching_material`
(all through read-only `Extract<…>` views):
`ray_marching_query` yields `(Entity, &Handle<RayMarchingMaterial>)`,
`camera_query` yields `&Transform` for `Camera2d` entities, and the two
resources. -/
structure SimWorld where
  ray_marching_query : List (Nat × Nat)
  camera_query : List Transform
  aspect_ratio : AspectRatio
  uniforms : MandelbulbUniforms
  deriving Repr, DecidableEq

/-- The render-world state the two systems touch: the mirror entities
(an association list from entity id to components, in spawn order) and
the render-world copies of the two resources. -/
structure RenderWorld where
  entities : List (Nat × RenderEntity)
  aspect_ratio : AspectRatio
  uniforms : MandelbulbUniforms
  deriving Repr, DecidableEq

/-! ## `extract_raymarching_material` (source lines 111–138) -/

/-- The insert `entity.insert(material_handle.clone())`: attach the handle,
overwriting any previous one. -/
def insertHandle (h : Nat) (e : RenderEntity) : RenderEntity :=
  { e with material_handle := some h }

/-- The insert `entity.insert(*transform)`: attach a camera transform, overwriting
any previous one. -/
def insertTransform (t : Transform) (e : RenderEntity) : RenderEntity :=
  { e with transform := some t }

/-- The per-entity body of the extraction loop: insert the handle, then
insert every camera transform in iteration order (each later camera
overwrites the earlier attachment). -/
def extractEntityStep (cams : List Transform) (h : Nat)
    (e : RenderEntity) : RenderEntity :=
  cams.foldl (fun e t => insertTransform t e) (insertHandle h e)

/-- The command `commands.get_or_spawn(entity)` followed by component inserts `f`:
if the entity id already exists in the render world the inserts apply to
it in place; otherwise a fresh empty entity is spawned (appended) and the
inserts apply to it. -/
def getOrSpawnApply (id : Nat) (f : RenderEntity → RenderEntity)
    (es : List (Nat × RenderEntity)) : List (Nat × RenderEntity) :=
  if es.any (fun p => p.1 == id) then
    es.map (fun p => if p.1 == id then (p.1, f p.2) else p)
  else
    es ++ [(id, f RenderEntity.empty)]

/-- One iteration of the extraction loop over the
`(Entity, &Handle<RayMarchingMaterial>)` query: `get_or_spawn` the mirror
entity and run the component inserts on it. -/
def extractLoop (cams : List Transform) (es : List (Nat × RenderEntity))
    (p : Nat × Nat) : List (Nat × RenderEntity) :=
  getOrSpawnApply p.1 (extractEntityStep cams p.2) es

/-- System `extract_raymarching_material`: for each simulation entity carrying a
material handle, mirror it into the render world with the handle and the
last-iterated camera transform; then rebuild the render-world `AspectRatio`
and `MandelbulbUniforms` resources field-by-field from the simulation
snapshot (`commands.insert_resource` replaces the resource wholesale). -/
def extract_raymarching_material (sim : SimWorld) (rw : RenderWorld) :
    RenderWorld :=
  { entities :=
      sim.ray_marching_query.foldl (extractLoop sim.camera_query) rw.entities
    aspect_ratio := { aspect_ratio := sim.aspect_ratio.aspect_ratio }
    uniforms :=
      { power := sim.uniforms.power
        max_iterations := sim.uniforms.max_iterations
        bailout := sim.uniforms.bailout
        num_steps := sim.uniforms.num_steps
        min_dist := sim.uniforms.min_dist
        max_dist := sim.uniforms.max_dist
        zoom := sim.uniforms.zoom } }

/-! ## `prepare_raymarching_material` (source lines 141–175) -/

/-- Enum `OwnedBindingResource`: the binding resources held by a prepared
material.  Only the `Buffer` variant receives uniform writes. -/
inductive OwnedBindingResource where
  | buffer (id : Nat)
  | textureView (id : Nat)
  | sampler (id : Nat)
  deriving Repr, DecidableEq

/-- A prepared GPU-side material (`RenderMaterials2d` entry): its bind
group's owned binding resources, in binding order. -/
structure PreparedMaterial where
  bindings : List OwnedBindingResource
  deriving Repr, DecidableEq

/-- The `RenderMaterials2d<RayMarchingMaterial>` resource: a partial map
from material-handle id to the prepared GPU-side material (absent while
the material has not finished uploading). -/
def RenderMaterials2d := Nat → Option PreparedMaterial

/-- One `render_queue.write_buffer(buffer, offset, bytes)` call scheduled
by the preparation system. -/
structure BufferWrite where
  buffer : Nat
  offset : Nat
  bytes : List Nat
  deriving Repr, DecidableEq

/-- The `RayMarchingMaterialUniformData` value built inside
`prepare_raymarching_material` from the entity's transform and the
render-world resources (source lines 154–167). -/
def mkUniformData (t : Transform) (a : AspectRatio)
    (u : MandelbulbUniforms) : RayMarchingMaterialUniformData :=
  { camera_position := t.translation
    camera_forward := t.forward
    camera_horizontal := t.right
    camera_vertical := t.up
    apsect_ratio := a.aspect_ratio
    power := u.power
    max_iterations := u.max_iterations
    bailout := u.bailout
    num_steps := u.num_steps
    min_dist := u.min_dist
    max_dist := u.max_dist
    zoom := u.zoom }

/-- The writes the preparation loop schedules for one
`(transform, handle)` query item: if the handle has no prepared material,
none; otherwise one full-block write at offset 0 for each buffer-typed
binding (the `if let OwnedBindingResource::Buffer` filter). -/
def prepareEntity (materials : RenderMaterials2d) (a : AspectRatio)
    (u : MandelbulbUniforms) (t : Transform) (h : Nat) : List BufferWrite :=
  match materials h with
  | none => []
  | some m =>
    m.bindings.filterMap (fun b =>
      match b with
      | OwnedBindingResource.buffer id =>
          some ⟨id, 0, serializeUniform (mkUniformData t a u)⟩
      | _ => none)

/-- The render-world query `Query<(&Transform, &Handle<RayMarchingMaterial>)>`:
entities carrying both components, in entity-list order. -/
def material_query (rw : RenderWorld) : List (Transform × Nat) :=
  rw.entities.filterMap (fun p =>
    match p.2.transform, p.2.material_handle with
    | some t, some h => some (t, h)
    | _, _ => none)

/-- The buffer writes scheduled for a query result list, in iteration
order. -/
def prepareWrites (materials : RenderMaterials2d) (a : AspectRatio)
    (u : MandelbulbUniforms) (q : List (Transform × Nat)) : List BufferWrite :=
  q.flatMap (fun th => prepareEntity materials a u th.1 th.2)

/-- System `prepare_raymarching_material`: schedule the uniform-buffer writes for
every render-world entity with both a transform and a material handle,
using the render-world resource snapshot. -/
def prepare_raymarching_material (materials : RenderMaterials2d)
    (rw : RenderWorld) : List BufferWrite :=
  prepareWrites materials rw.aspect_ratio rw.uniforms (material_query rw)

/-- The combined per-frame state: the simulation world and the render
world.  `extract_raymarching_material` reads the former and writes only
the latter. -/
structure PipelineState where
  sim : SimWorld
  render : RenderWorld
  deriving Repr, DecidableEq

/-- The extraction stage as a transition on the combined state. -/
def extractStep (st : PipelineState) : PipelineState :=
  { sim := st.sim
    render := extract_raymarching_material st.sim st.render }

/-- The buffer ids of the buffer-typed bindings of a bind group, in
binding order. -/
def bufferBindingIds (bs : List OwnedBindingResource) : List Nat :=
  bs.filterMap (fun b =>
    match b with
    | OwnedBindingResource.buffer id => some id
    | _ => none)

/-- A vector of well-formed 32-bit patterns. -/
abbrev Vec3.wf (v : Vec3) : Prop :=
  v.x < 4294967296 ∧ v.y < 4294967296 ∧ v.z < 4294967296

/-- A transform whose four observable vectors are well-formed 32-bit
patterns. -/
abbrev Transform.wf (t : Transform) : Prop :=
  t.translation.wf ∧ t.forward.wf ∧ t.right.wf ∧ t.up.wf

/-! ## Concrete fixtures used by witness theorems -/

/-- A concrete camera transform (distinct bit patterns per component). -/
def wTransform : Transform :=
  ⟨⟨1, 2, 3⟩, ⟨4, 5, 6⟩, ⟨7, 8, 9⟩, ⟨10, 11, 12⟩⟩

/-- A second concrete camera transform. -/
def wTransform2 : Transform :=
  ⟨⟨21, 22, 23⟩, ⟨24, 25, 26⟩, ⟨27, 28, 29⟩, ⟨30, 31, 32⟩⟩

/-- A concrete aspect-ratio resource value. -/
def wAspect : AspectRatio := ⟨13⟩

/-- A concrete fractal-parameter resource value. -/
def wUniforms : MandelbulbUniforms := ⟨14, 15, 16, 17, 18, 19, 20⟩

/-- A concrete simulation world: one entity (id 0) carrying material
handle 5, and one camera. -/
def wSim : SimWorld := ⟨[(0, 5)], [wTransform], wAspect, wUniforms⟩

/-- A fresh render world (no mirror entities yet). -/
def wRenderWorld : RenderWorld := ⟨[], ⟨0⟩, ⟨0, 0, 0, 0, 0, 0, 0⟩⟩

/-- A concrete `RenderMaterials2d` table: handle 5 resolves to a material
with one buffer binding (buffer id 7) and one sampler binding. -/
def wMaterials : RenderMaterials2d := fun h =>
  if h = 5 then
    some ⟨[OwnedBindingResource.buffer 7, OwnedBindingResource.sampler 9]⟩
  else none

/-- The write the pipeline schedules for the fixture world. -/
def wWrite : BufferWrite :=
  ⟨7, 0, serializeUniform (mkUniformData wTransform wAspect wUniforms)⟩

/-- A simulation world with no camera entities. -/
def wSimNoCam : SimWorld := ⟨[(0, 5)], [], wAspect, wUniforms⟩

/-- A simulation world with two camera entities. -/
def wSimTwoCams : SimWorld :=
  ⟨[(0, 5)], [wTransform, wTransform2], wAspect, wUniforms⟩

/-! ## The `RayMarchingMaterial` descriptor and its `new` constructor

The claim about `RayMarchingMaterial::new` concerns the literal values of
its fields, not bit patterns, so the descriptor is modelled with exact
rational values for `f32` fields (`new` stores literals and performs no
arithmetic, so literal semantics are exact) and `Nat` for `u32` fields. -/

/-- A three-component vector of exact rational values (`Vec3::new`). -/
structure Vec3q where
  x : ℚ
  y : ℚ
  z : ℚ
  deriving Repr, DecidableEq

/-- The `RayMarchingMaterial` struct (source lines 32–60): the
`AsBindGroup` material descriptor, all twelve fields declared at uniform
binding 0. -/
structure RayMarchingMaterial where
  camera_position : Vec3q
  camera_forward : Vec3q
  camera_horizontal : Vec3q
  camera_vertical : Vec3q
  aspect_ratio : ℚ
  power : ℚ
  max_iterations : Nat
  bailout : ℚ
  num_steps : Nat
  min_dist : ℚ
  max_dist : ℚ
  zoom : ℚ
  deriving Repr, DecidableEq

/-- Constructor `RayMarchingMaterial::new` (source lines 62–79): the default
instance, field literals transcribed verbatim. -/
def RayMarchingMaterial.new : RayMarchingMaterial :=
  { camera_position := ⟨0, 0, 0⟩
    camera_forward := ⟨0, 0, -1⟩
    camera_horizontal := ⟨1, 0, 0⟩
    camera_vertical := ⟨0, 1, 0⟩
    aspect_ratio := 1
    power := 8
    max_iterations := 8
    bailout := 3
    num_steps := 64
    min_dist := 0.002
    max_dist := 1000
    zoom := 1 }

/-! ## Serialization layout lemmas -/

theorem serializeUniform_length (d : RayMarchingMaterialUniformData) :
    (serializeUniform d).length = uniformBlockSize := by
  simp [serializeUniform, encodeVec3, encodeWord, padBytes, uniformBlockSize]

theorem slice_camera_position (d : RayMarchingMaterialUniformData) :
    slice (serializeUniform d) 0 12 = encodeVec3 d.camera_position := by
  simp [slice, serializeUniform, encodeVec3, encodeWord, padBytes, List.replicate]

theorem slice_camera_forward (d : RayMarchingMaterialUniformData) :
    slice (serializeUniform d) 16 12 = encodeVec3 d.camera_forward := by
  simp [slice, serializeUniform, encodeVec3, encodeWord, padBytes, List.replicate]

theorem slice_camera_horizontal (d : RayMarchingMaterialUniformData) :
    slice (serializeUniform d) 32 12 = encodeVec3 d.camera_horizontal := by
  simp [slice, serializeUniform, encodeVec3, encodeWord, padBytes, List.replicate]

theorem slice_camera_vertical (d : RayMarchingMaterialUniformData) :
    slice (serializeUniform d) 48 12 = encodeVec3 d.camera_vertical := by
  simp [slice, serializeUniform, encodeVec3, encodeWord, padBytes, List.replicate]

theorem slice_apsect_ratio (d : RayMarchingMaterialUniformData) :
    slice (serializeUniform d) 60 4 = encodeWord d.apsect_ratio := by
  simp [slice, serializeUniform, encodeVec3, encodeWord, padBytes, List.replicate]

theorem slice_power (d : RayMarchingMaterialUniformData) :
    slice (serializeUniform d) 64 4 = encodeWord d.power := by
  simp [slice, serializeUniform, encodeVec3, encodeWord, padBytes, List.replicate]

theorem slice_max_iterations (d : RayMarchingMaterialUniformData) :
    slice (serializeUniform d) 68 4 = encodeWord d.max_iterations := by
  simp [slice, serializeUniform, encodeVec3, encodeWord, padBytes, List.replicate]

theorem slice_bailout (d : RayMarchingMaterialUniformData) :
    slice (serializeUniform d) 72 4 = encodeWord d.bailout := by
  simp [slice, serializeUniform, encodeVec3, encodeWord, padBytes, List.replicate]

theorem slice_num_steps (d : RayMarchingMaterialUniformData) :
    slice (serializeUniform d) 76 4 = encodeWord d.num_steps := by
  simp [slice, serializeUniform, encodeVec3, encodeWord, padBytes, List.replicate]

theorem slice_min_dist (d : RayMarchingMaterialUniformData) :
    slice (serializeUniform d) 80 4 = encodeWord d.min_dist := by
  simp [slice, serializeUniform, encodeVec3, encodeWord, padBytes, List.replicate]

theorem slice_max_dist (d : RayMarchingMaterialUniformData) :
    slice (serializeUniform d) 84 4 = encodeWord d.max_dist := by
  simp [slice, serializeUniform, encodeVec3, encodeWord, padBytes, List.replicate]

theorem slice_zoom (d : RayMarchingMaterialUniformData) :
    slice (serializeUniform d) 88 4 = encodeWord d.zoom := by
  simp [slice, serializeUniform, encodeVec3, encodeWord, padBytes, List.replicate]

/-- Every write produced for one query item is a full serialized block at
offset 0. -/
theorem mem_prepareEntity {materials : RenderMaterials2d} {a : AspectRatio}
    {u : MandelbulbUniforms} {t : Transform} {h : Nat} {w : BufferWrite}
    (hw : w ∈ prepareEntity materials a u t h) :
    w.offset = 0 ∧ w.bytes = serializeUniform (mkUniformData t a u) := by
  unfold prepareEntity at hw
  cases hm : materials h with
  | none => rw [hm] at hw; simp at hw
  | some m =>
    rw [hm] at hw
    rcases List.mem_filterMap.mp hw with ⟨b, _, hb⟩
    cases b with
    | buffer id =>
      simp only [Option.some.injEq] at hb
      subst hb
      exact ⟨rfl, rfl⟩
    | textureView id => simp at hb
    | sampler id => simp at hb

/-- Every write produced by the preparation system uses the render-world
resource snapshot and the transform of some query item. -/
theorem mem_prepare_raymarching {materials : RenderMaterials2d}
    {rw : RenderWorld} {w : BufferWrite}
    (hw : w ∈ prepare_raymarching_material materials rw) :
    ∃ th ∈ material_query rw,
      w.offset = 0 ∧
      w.bytes = serializeUniform (mkUniformData th.1 rw.aspect_ratio rw.uniforms) := by
  unfold prepare_raymarching_material prepareWrites at hw
  rcases List.mem_flatMap.mp hw with ⟨th, hth, hmem⟩
  exact ⟨th, hth, mem_prepareEntity hmem⟩

/-- The camera-insert loop keeps the handle and folds the transforms:
the accumulated entity after inserting every camera transform. -/
theorem foldl_insertTransform (cams : List Transform) (e : RenderEntity) :
    cams.foldl (fun e t => insertTransform t e) e =
      ⟨e.material_handle, cams.foldl (fun _ t => some t) e.transform⟩ := by
  induction cams generalizing e with
  | nil => rfl
  | cons t cams ih =>
    rw [List.foldl_cons, List.foldl_cons, ih]
    rfl

/-- The extraction loop body in closed form: it sets the handle and folds
the camera transforms over the previous transform component. -/
theorem extractEntityStep_spec (cams : List Transform) (h : Nat)
    (e : RenderEntity) :
    extractEntityStep cams h e =
      ⟨some h, cams.foldl (fun _ t => some t) e.transform⟩ := by
  unfold extractEntityStep
  rw [foldl_insertTransform]
  rfl

/-- Folding `fun _ t => some t` over a nonempty list yields its last
element regardless of the initial accumulator: later cameras overwrite
earlier ones. -/
theorem foldl_lastWins (cams : List Transform) (o : Option Transform)
    (hc : cams ≠ []) :
    cams.foldl (fun _ t => some t) o = cams.getLast? := by
  induction cams generalizing o with
  | nil => exact absurd rfl hc
  | cons t rest ih =>
    cases rest with
    | nil => rfl
    | cons t2 cs =>
      rw [List.foldl_cons, ih (some t) (List.cons_ne_nil _ _),
        List.getLast?_cons_cons]

/-- Invariant propagation for the extraction fold: if the loop body
preserves a property `X` of the transform component (both when updating
an existing entity and when spawning a fresh one), then every entity
after the fold satisfies it. -/
theorem fold_transform_inv (cams : List Transform) (X : Option Transform)
    (hF : ∀ (h : Nat) (e : RenderEntity), e.transform = X →
      (extractEntityStep cams h e).transform = X)
    (hF0 : ∀ h : Nat,
      (extractEntityStep cams h RenderEntity.empty).transform = X) :
    ∀ (L : List (Nat × Nat)) (es : List (Nat × RenderEntity)),
      (∀ p ∈ es, p.2.transform = X) →
      ∀ p ∈ L.foldl (extractLoop cams) es, p.2.transform = X := by
  intro L
  induction L with
  | nil => intro es hes p hp; exact hes p hp
  | cons q L ih =>
    intro es hes p hp
    rw [List.foldl_cons] at hp
    refine ih (extractLoop cams es q) ?_ p hp
    intro r hr
    unfold extractLoop getOrSpawnApply at hr
    split at hr
    · rcases List.mem_map.mp hr with ⟨s, hs, hmap⟩
      split at hmap
      · subst hmap
        exact hF q.2 s.2 (hes s hs)
      · subst hmap
        exact hes s hs
    · rcases List.mem_append.mp hr with h1 | h2
      · exact hes r h1
      · rw [List.mem_singleton] at h2
        subst h2
        exact hF0 q.2

/-- Folding the overwrite function twice over the same camera list is the
same as folding it once: only the last camera survives either way. -/
theorem foldl_overwrite_idem (cams : List Transform) (o : Option Transform) :
    cams.foldl (fun _ t => some t) (cams.foldl (fun _ t => some t) o) =
      cams.foldl (fun _ t => some t) o := by
  cases cams <;> rfl

/-- The extraction loop body is idempotent on an entity: re-inserting the
same handle and the same camera sequence changes nothing. -/
theorem extractEntityStep_idem (cams : List Transform) (h : Nat)
    (e : RenderEntity) :
    extractEntityStep cams h (extractEntityStep cams h e) =
      extractEntityStep cams h e := by
  rw [extractEntityStep_spec cams h e, extractEntityStep_spec]
  rw [RenderEntity.mk.injEq]
  exact ⟨rfl, foldl_overwrite_idem cams e.transform⟩

/-- A `get_or_spawn` step preserves the presence of any entity id. -/
theorem any_getOrSpawnApply (id id' : Nat) (f : RenderEntity → RenderEntity)
    (es : List (Nat × RenderEntity))
    (hany : es.any (fun p => p.1 == id) = true) :
    (getOrSpawnApply id' f es).any (fun p => p.1 == id) = true := by
  unfold getOrSpawnApply
  split
  · rw [List.any_map]
    rcases List.any_eq_true.mp hany with ⟨p, hp, hbeq⟩
    refine List.any_eq_true.mpr ⟨p, hp, ?_⟩
    show (if p.1 == id' then (p.1, f p.2) else p).1 == id
    split <;> exact hbeq
  · rw [List.any_append, hany, Bool.true_or]

/-- After `get_or_spawn` on an id, that id is present. -/
theorem any_getOrSpawnApply_self (id : Nat) (f : RenderEntity → RenderEntity)
    (es : List (Nat × RenderEntity)) :
    (getOrSpawnApply id f es).any (fun p => p.1 == id) = true := by
  unfold getOrSpawnApply
  split
  · next hany =>
    rw [List.any_map]
    rcases List.any_eq_true.mp hany with ⟨p, hp, hbeq⟩
    refine List.any_eq_true.mpr ⟨p, hp, ?_⟩
    show (if p.1 == id then (p.1, f p.2) else p).1 == id
    split <;> exact hbeq
  · rw [List.any_append, List.any_cons]
    simp

/-- After applying inserts `f` to entity `id`, every `id`-keyed entry is
an `f`-image, so a second application of an idempotent `f` fixes it. -/
theorem fixed_after_getOrSpawnApply (id : Nat)
    (f : RenderEntity → RenderEntity) (hf : ∀ e, f (f e) = f e)
    (es : List (Nat × RenderEntity)) :
    ∀ p ∈ getOrSpawnApply id f es, p.1 = id → f p.2 = p.2 := by
  unfold getOrSpawnApply
  split
  · intro p hp hpid
    rcases List.mem_map.mp hp with ⟨s, hs, hmap⟩
    split at hmap
    · subst hmap
      exact hf s.2
    · next hbeq =>
      subst hmap
      exact absurd (beq_iff_eq.mpr hpid) hbeq
  · next hany =>
    intro p hp hpid
    rcases List.mem_append.mp hp with h1 | h2
    · have hfound : es.any (fun p => p.1 == id) = true :=
        List.any_eq_true.mpr ⟨p, h1, beq_iff_eq.mpr hpid⟩
      exact absurd hfound hany
    · rw [List.mem_singleton] at h2
      subst h2
      exact hf RenderEntity.empty

/-- Inserting into a different entity id leaves `id`-keyed entries
unchanged, so their fixedness under `f` is preserved. -/
theorem fixed_preserved_getOrSpawnApply (id id' : Nat) (hne : id' ≠ id)
    (f f' : RenderEntity → RenderEntity) (es : List (Nat × RenderEntity))
    (hQ : ∀ p ∈ es, p.1 = id → f p.2 = p.2) :
    ∀ p ∈ getOrSpawnApply id' f' es, p.1 = id → f p.2 = p.2 := by
  unfold getOrSpawnApply
  split
  · intro p hp hpid
    rcases List.mem_map.mp hp with ⟨s, hs, hmap⟩
    split at hmap
    · next hbeq =>
      subst hmap
      have hs1 : s.1 = id' := beq_iff_eq.mp hbeq
      exact absurd (hs1 ▸ hpid) hne
    · subst hmap
      exact hQ s hs hpid
  · intro p hp hpid
    rcases List.mem_append.mp hp with h1 | h2
    · exact hQ p h1 hpid
    · rw [List.mem_singleton] at h2
      subst h2
      exact absurd hpid hne

/-- Updating an entity whose `id`-keyed entries are already fixed points
of `f` is a no-op. -/
theorem map_update_fixed (id : Nat) (f : RenderEntity → RenderEntity) :
    ∀ es : List (Nat × RenderEntity),
      (∀ p ∈ es, p.1 = id → f p.2 = p.2) →
      es.map (fun p => if p.1 == id then (p.1, f p.2) else p) = es := by
  intro es
  induction es with
  | nil => intro _; rfl
  | cons p es ih =>
    intro hQ
    rw [List.map_cons, ih (fun r hr => hQ r (List.mem_cons_of_mem _ hr))]
    congr 1
    by_cases hbeq : (p.1 == id) = true
    · rw [if_pos hbeq, hQ p (List.mem_cons_self _ _) (beq_iff_eq.mp hbeq)]
    · rw [if_neg hbeq]

/-- A `get_or_spawn` + inserts step on a present, already-fixed id is a no-op. -/
theorem getOrSpawnApply_noop (id : Nat) (f : RenderEntity → RenderEntity)
    (es : List (Nat × RenderEntity))
    (hany : es.any (fun p => p.1 == id) = true)
    (hQ : ∀ p ∈ es, p.1 = id → f p.2 = p.2) :
    getOrSpawnApply id f es = es := by
  unfold getOrSpawnApply
  rw [if_pos hany]
  exact map_update_fixed id f es hQ

/-- Presence and fixedness of an id survive an extraction fold over pairs
whose ids all differ from it. -/
theorem presence_fixed_through_fold (cams : List Transform) (id : Nat)
    (f : RenderEntity → RenderEntity) :
    ∀ (L : List (Nat × Nat)) (es : List (Nat × RenderEntity)),
      id ∉ L.map Prod.fst →
      es.any (fun p => p.1 == id) = true →
      (∀ p ∈ es, p.1 = id → f p.2 = p.2) →
      (L.foldl (extractLoop cams) es).any (fun p => p.1 == id) = true ∧
      ∀ p ∈ L.foldl (extractLoop cams) es, p.1 = id → f p.2 = p.2 := by
  intro L
  induction L with
  | nil => intro es _ h1 h2; exact ⟨h1, h2⟩
  | cons q L ih =>
    intro es hnot h1 h2
    rw [List.map_cons] at hnot
    have hne : q.1 ≠ id := fun hq => hnot (hq ▸ List.mem_cons_self _ _)
    rw [List.foldl_cons]
    refine ih (extractLoop cams es q)
      (fun hmem => hnot (List.mem_cons_of_mem _ hmem)) ?_ ?_
    · exact any_getOrSpawnApply id q.1 _ es h1
    · exact fixed_preserved_getOrSpawnApply id q.1 hne f _ es h2

/-- Running the extraction fold a second time over the same query with
distinct entity ids changes nothing. -/
theorem foldl_extractLoop_twice (cams : List Transform) :
    ∀ (L : List (Nat × Nat)) (es : List (Nat × RenderEntity)),
      (L.map Prod.fst).Nodup →
      L.foldl (extractLoop cams) (L.foldl (extractLoop cams) es) =
        L.foldl (extractLoop cams) es := by
  intro L
  induction L with
  | nil => intro es _; rfl
  | cons q L ih =>
    intro es hnd
    rw [List.map_cons, List.nodup_cons] at hnd
    obtain ⟨hqnot, hnd'⟩ := hnd
    rw [List.foldl_cons, List.foldl_cons]
    have hpres := presence_fixed_through_fold cams q.1
      (extractEntityStep cams q.2) L (extractLoop cams es q) hqnot
      (any_getOrSpawnApply_self q.1 _ es)
      (fixed_after_getOrSpawnApply q.1 _ (extractEntityStep_idem cams q.2) es)
    have hnoop : extractLoop cams
        (L.foldl (extractLoop cams) (extractLoop cams es q)) q =
        L.foldl (extractLoop cams) (extractLoop cams es q) := by
      unfold extractLoop
      exact getOrSpawnApply_noop q.1 _ _ hpres.1 hpres.2
    rw [hnoop]
    exact ih (extractLoop cams es q) hnd'

/-- With distinct query entity ids, extraction is idempotent on the
render world. -/
theorem extract_raymarching_material_idem (sim : SimWorld)
    (rw : RenderWorld)
    (hnd : (sim.ray_marching_query.map Prod.fst).Nodup) :
    extract_raymarching_material sim (extract_raymarching_material sim rw) =
      extract_raymarching_material sim rw := by
  unfold extract_raymarching_material
  rw [RenderWorld.mk.injEq]
  exact ⟨foldl_extractLoop_twice sim.camera_query sim.ray_marching_query
    rw.entities hnd, rfl, rfl⟩

/-- Little-endian round trip for a well-formed 32-bit word. -/
theorem decodeWord_encodeWord (w : Nat) (hw : w < 4294967296) :
    decodeWord (encodeWord w) = w := by
  simp only [decodeWord, encodeWord, List.getD, List.get?, Option.getD_some]
  omega

/-- Componentwise round trip for a well-formed vector. -/
theorem decodeVec3_encodeVec3 (v : Vec3) (hv : v.wf) :
    decodeVec3 (encodeVec3 v) = v := by
  have e1 : (encodeVec3 v).take 4 = encodeWord v.x := rfl
  have e2 : ((encodeVec3 v).drop 4).take 4 = encodeWord v.y := rfl
  have e3 : ((encodeVec3 v).drop 8).take 4 = encodeWord v.z := rfl
  unfold decodeVec3
  rw [e1, e2, e3, decodeWord_encodeWord _ hv.1,
    decodeWord_encodeWord _ hv.2.1, decodeWord_encodeWord _ hv.2.2]

/-! ## Claim theorems -/

/-- C1: for all parameter-store values `P` (`MandelbulbUniforms`) and view
values `V` (`AspectRatio`) in the simulation world, every uniform-buffer
write scheduled by one `extract_raymarching_material` +
`prepare_raymarching_material` cycle carries, at the declared uniform-block
offsets (power 64, max_iterations 68, bailout 72, num_steps 76, min_dist
80, max_dist 84, zoom 88), exactly the 32-bit little-endian encodings of
`P`'s fields, and at offset 60 the encoding of `V.aspect_ratio`. -/
theorem pipeline_parameter_bytes (sim : SimWorld) (rw : RenderWorld)
    (materials : RenderMaterials2d) (w : BufferWrite)
    (hw : w ∈ prepare_raymarching_material materials
      (extract_raymarching_material sim rw)) :
    slice w.bytes 64 4 = encodeWord sim.uniforms.power ∧
    slice w.bytes 68 4 = encodeWord sim.uniforms.max_iterations ∧
    slice w.bytes 72 4 = encodeWord sim.uniforms.bailout ∧
    slice w.bytes 76 4 = encodeWord sim.uniforms.num_steps ∧
    slice w.bytes 80 4 = encodeWord sim.uniforms.min_dist ∧
    slice w.bytes 84 4 = encodeWord sim.uniforms.max_dist ∧
    slice w.bytes 88 4 = encodeWord sim.uniforms.zoom ∧
    slice w.bytes 60 4 = encodeWord sim.aspect_ratio.aspect_ratio := by
  rcases mem_prepare_raymarching hw with ⟨th, _, _, hbytes⟩
  rw [hbytes]
  exact ⟨slice_power _, slice_max_iterations _, slice_bailout _,
    slice_num_steps _, slice_min_dist _, slice_max_dist _, slice_zoom _,
    slice_apsect_ratio _⟩

/-- C1 witness: the fixture world schedules a write, and its bytes carry
the fixture parameters at the declared offsets. -/
theorem pipeline_parameter_bytes_witness :
    wWrite ∈ prepare_raymarching_material wMaterials
      (extract_raymarching_material wSim wRenderWorld) ∧
    (slice wWrite.bytes 64 4 = encodeWord wSim.uniforms.power ∧
     slice wWrite.bytes 68 4 = encodeWord wSim.uniforms.max_iterations ∧
     slice wWrite.bytes 72 4 = encodeWord wSim.uniforms.bailout ∧
     slice wWrite.bytes 76 4 = encodeWord wSim.uniforms.num_steps ∧
     slice wWrite.bytes 80 4 = encodeWord wSim.uniforms.min_dist ∧
     slice wWrite.bytes 84 4 = encodeWord wSim.uniforms.max_dist ∧
     slice wWrite.bytes 88 4 = encodeWord wSim.uniforms.zoom ∧
     slice wWrite.bytes 60 4 = encodeWord wSim.aspect_ratio.aspect_ratio) :=
  have hm : wWrite ∈ prepare_raymarching_material wMaterials
      (extract_raymarching_material wSim wRenderWorld) := by decide
  ⟨hm, pipeline_parameter_bytes wSim wRenderWorld wMaterials wWrite hm⟩

/-- C2: for every camera transform `t` attached to a render-world entity
(i.e. appearing in the transform+handle query), every write
`prepare_raymarching_material`'s per-entity body schedules carries `t`'s
translation, forward, right and up vectors at the camera_position (0),
camera_forward (16), camera_horizontal (32) and camera_vertical (48)
offsets: decoding the written buffer recovers `t`'s frame exactly. -/
theorem prepare_camera_frame_roundtrip (materials : RenderMaterials2d)
    (rw : RenderWorld) (t : Transform) (h : Nat) (w : BufferWrite)
    (_hq : (t, h) ∈ material_query rw)
    (hw : w ∈ prepareEntity materials rw.aspect_ratio rw.uniforms t h)
    (ht : t.wf) :
    decodeVec3 (slice w.bytes 0 12) = t.translation ∧
    decodeVec3 (slice w.bytes 16 12) = t.forward ∧
    decodeVec3 (slice w.bytes 32 12) = t.right ∧
    decodeVec3 (slice w.bytes 48 12) = t.up := by
  obtain ⟨-, hbytes⟩ := mem_prepareEntity hw
  rw [hbytes, slice_camera_position, slice_camera_forward,
    slice_camera_horizontal, slice_camera_vertical]
  exact ⟨decodeVec3_encodeVec3 _ ht.1, decodeVec3_encodeVec3 _ ht.2.1,
    decodeVec3_encodeVec3 _ ht.2.2.1, decodeVec3_encodeVec3 _ ht.2.2.2⟩

/-- C2 witness: in the fixture pipeline the scheduled write decodes back
to the fixture camera's frame. -/
theorem prepare_camera_frame_roundtrip_witness :
    ((wTransform, 5) ∈ material_query (extract_raymarching_material wSim wRenderWorld) ∧
     wWrite ∈ prepareEntity wMaterials
       (extract_raymarching_material wSim wRenderWorld).aspect_ratio
       (extract_raymarching_material wSim wRenderWorld).uniforms wTransform 5 ∧
     wTransform.wf) ∧
    (decodeVec3 (slice wWrite.bytes 0 12) = wTransform.translation ∧
     decodeVec3 (slice wWrite.bytes 16 12) = wTransform.forward ∧
     decodeVec3 (slice wWrite.bytes 32 12) = wTransform.right ∧
     decodeVec3 (slice wWrite.bytes 48 12) = wTransform.up) :=
  have hq : (wTransform, 5) ∈ material_query
      (extract_raymarching_material wSim wRenderWorld) := by decide
  have hw : wWrite ∈ prepareEntity wMaterials
      (extract_raymarching_material wSim wRenderWorld).aspect_ratio
      (extract_raymarching_material wSim wRenderWorld).uniforms wTransform 5 := by
    decide
  have ht : wTransform.wf := by decide
  ⟨⟨hq, hw, ht⟩,
    prepare_camera_frame_roundtrip wMaterials
      (extract_raymarching_material wSim wRenderWorld) wTransform 5 wWrite hq hw ht⟩

/-- C4: a query entity whose material handle has no resolved GPU-side
material contributes zero buffer writes (and the total function raises no
error): the per-entity body returns no writes, and the writes of a query
containing that entity equal the writes of the query without it. -/
theorem prepare_skips_unresolved_material (materials : RenderMaterials2d)
    (a : AspectRatio) (u : MandelbulbUniforms) (t : Transform) (h : Nat)
    (pre post : List (Transform × Nat)) (hm : materials h = none) :
    prepareEntity materials a u t h = [] ∧
    prepareWrites materials a u (pre ++ (t, h) :: post) =
      prepareWrites materials a u (pre ++ post) := by
  have h0 : prepareEntity materials a u t h = [] := by
    unfold prepareEntity
    rw [hm]
  refine ⟨h0, ?_⟩
  unfold prepareWrites
  rw [List.flatMap_append, List.flatMap_cons, List.flatMap_append, h0]
  simp

/-- C4 witness: handle 6 is unresolved in the fixture material table, so
the corresponding query entity is skipped. -/
theorem prepare_skips_unresolved_material_witness :
    wMaterials 6 = none ∧
    (prepareEntity wMaterials wAspect wUniforms wTransform2 6 = [] ∧
     prepareWrites wMaterials wAspect wUniforms
       ([(wTransform, 5)] ++ (wTransform2, 6) :: []) =
       prepareWrites wMaterials wAspect wUniforms ([(wTransform, 5)] ++ [])) :=
  have hm : wMaterials 6 = none := rfl
  ⟨hm, prepare_skips_unresolved_material wMaterials wAspect wUniforms
    wTransform2 6 [(wTransform, 5)] [] hm⟩

/-- C10: for a resolved material, every scheduled write is the same full
serialized uniform block (96 bytes) written at offset 0, and the writes
target exactly the buffer-typed bindings in binding order — non-buffer
bindings (texture views, samplers) receive no write. -/
theorem prepare_full_overwrite_per_buffer_binding
    (materials : RenderMaterials2d) (a : AspectRatio)
    (u : MandelbulbUniforms) (t : Transform) (h : Nat)
    (m : PreparedMaterial) (hm : materials h = some m) :
    (∀ w ∈ prepareEntity materials a u t h,
        w.offset = 0 ∧
        w.bytes = serializeUniform (mkUniformData t a u) ∧
        w.bytes.length = uniformBlockSize) ∧
    (prepareEntity materials a u t h).map BufferWrite.buffer =
      bufferBindingIds m.bindings := by
  constructor
  · intro w hw
    obtain ⟨ho, hb⟩ := mem_prepareEntity hw
    exact ⟨ho, hb, hb ▸ serializeUniform_length _⟩
  · unfold prepareEntity bufferBindingIds
    rw [hm, List.map_filterMap]
    congr 1
    funext b
    cases b <;> rfl

/-- C10 witness: handle 5 resolves to a material with one buffer binding
and one sampler binding; exactly the buffer binding is written. -/
theorem prepare_full_overwrite_per_buffer_binding_witness :
    wMaterials 5 = some ⟨[OwnedBindingResource.buffer 7,
      OwnedBindingResource.sampler 9]⟩ ∧
    ((∀ w ∈ prepareEntity wMaterials wAspect wUniforms wTransform 5,
        w.offset = 0 ∧
        w.bytes = serializeUniform (mkUniformData wTransform wAspect wUniforms) ∧
        w.bytes.length = uniformBlockSize) ∧
     (prepareEntity wMaterials wAspect wUniforms wTransform 5).map
        BufferWrite.buffer =
       bufferBindingIds [OwnedBindingResource.buffer 7,
         OwnedBindingResource.sampler 9]) :=
  have hm : wMaterials 5 = some ⟨[OwnedBindingResource.buffer 7,
      OwnedBindingResource.sampler 9]⟩ := rfl
  ⟨hm, prepare_full_overwrite_per_buffer_binding wMaterials wAspect wUniforms
    wTransform 5 _ hm⟩

/-- C6: extraction replaces the render-world `AspectRatio` and
`MandelbulbUniforms` resources wholesale with the simulation-world
snapshot — every field of the render-world copies equals the
corresponding simulation-world field, whatever the previous render-world
values were. -/
theorem extract_replaces_resources (sim : SimWorld) (rw : RenderWorld) :
    (extract_raymarching_material sim rw).aspect_ratio = sim.aspect_ratio ∧
    (extract_raymarching_material sim rw).uniforms = sim.uniforms :=
  ⟨rfl, rfl⟩

/-- C5: with zero camera entities in the simulation world, extraction
onto a fresh render world attaches no transform to any mirror entity, and
preparation (a total function — no panic) schedules no buffer write that
frame: the entities are excluded from the transform+handle query. -/
theorem extract_no_camera_no_write (sim : SimWorld) (A : AspectRatio)
    (U : MandelbulbUniforms) (materials : RenderMaterials2d)
    (hc : sim.camera_query = []) :
    (∀ p ∈ (extract_raymarching_material sim ⟨[], A, U⟩).entities,
        p.2.transform = none) ∧
    prepare_raymarching_material materials
      (extract_raymarching_material sim ⟨[], A, U⟩) = [] := by
  have hinv : ∀ p ∈ (extract_raymarching_material sim ⟨[], A, U⟩).entities,
      p.2.transform = none := by
    refine fold_transform_inv sim.camera_query none ?_ ?_
      sim.ray_marching_query [] ?_
    · intro h e he
      rw [extractEntityStep_spec]
      show sim.camera_query.foldl (fun _ t => some t) e.transform = none
      rw [hc, List.foldl_nil]
      exact he
    · intro h
      rw [extractEntityStep_spec]
      show sim.camera_query.foldl (fun _ t => some t) none = none
      rw [hc, List.foldl_nil]
    · intro p hp
      exact absurd hp (List.not_mem_nil p)
  refine ⟨hinv, ?_⟩
  have hq : material_query (extract_raymarching_material sim ⟨[], A, U⟩) = [] := by
    unfold material_query
    refine List.filterMap_eq_nil_iff.mpr ?_
    intro p hp
    rw [hinv p hp]
  unfold prepare_raymarching_material
  rw [hq]
  rfl

/-- C5 witness: the camera-free fixture world extracts transform-free
mirror entities and prepares zero writes. -/
theorem extract_no_camera_no_write_witness :
    wSimNoCam.camera_query = [] ∧
    ((∀ p ∈ (extract_raymarching_material wSimNoCam
        ⟨[], wAspect, wUniforms⟩).entities, p.2.transform = none) ∧
     prepare_raymarching_material wMaterials
       (extract_raymarching_material wSimNoCam ⟨[], wAspect, wUniforms⟩) = []) :=
  have hc : wSimNoCam.camera_query = [] := rfl
  ⟨hc, extract_no_camera_no_write wSimNoCam wAspect wUniforms wMaterials hc⟩

/-- C7: when at least one camera exists, the transform attached to every
mirror entity extraction produces on a fresh render world is the last
camera transform in the camera query's iteration order — each later
camera overwrites the earlier attachment. -/
theorem extract_last_camera_wins (sim : SimWorld) (A : AspectRatio)
    (U : MandelbulbUniforms) (hc : sim.camera_query ≠ []) :
    ∀ p ∈ (extract_raymarching_material sim ⟨[], A, U⟩).entities,
      p.2.transform = sim.camera_query.getLast? := by
  refine fold_transform_inv sim.camera_query sim.camera_query.getLast? ?_ ?_
    sim.ray_marching_query [] ?_
  · intro h e _
    rw [extractEntityStep_spec]
    exact foldl_lastWins sim.camera_query e.transform hc
  · intro h
    rw [extractEntityStep_spec]
    exact foldl_lastWins sim.camera_query none hc
  · intro p hp
    exact absurd hp (List.not_mem_nil p)

/-- C7 witness: with two cameras in the fixture world, the mirror entity
carries the second camera's transform. -/
theorem extract_last_camera_wins_witness :
    wSimTwoCams.camera_query ≠ [] ∧
    ∀ p ∈ (extract_raymarching_material wSimTwoCams
        ⟨[], wAspect, wUniforms⟩).entities,
      p.2.transform = wSimTwoCams.camera_query.getLast? :=
  have hc : wSimTwoCams.camera_query ≠ [] := by decide
  ⟨hc, extract_last_camera_wins wSimTwoCams wAspect wUniforms hc⟩

/-- C3: running extraction + preparation twice with no intervening change
to the simulation world (the second extraction operating on the render
world left by the first) schedules byte-identical buffer writes both
times, given the (ECS-guaranteed) distinctness of query entity ids. -/
theorem pipeline_idempotent (sim : SimWorld) (rw : RenderWorld)
    (materials : RenderMaterials2d)
    (hnd : (sim.ray_marching_query.map Prod.fst).Nodup) :
    prepare_raymarching_material materials
        (extract_raymarching_material sim
          (extract_raymarching_material sim rw)) =
      prepare_raymarching_material materials
        (extract_raymarching_material sim rw) := by
  rw [extract_raymarching_material_idem sim rw hnd]

/-- C3 witness: the fixture world's query ids are distinct and the two
runs schedule identical writes. -/
theorem pipeline_idempotent_witness :
    (wSim.ray_marching_query.map Prod.fst).Nodup ∧
    prepare_raymarching_material wMaterials
        (extract_raymarching_material wSim
          (extract_raymarching_material wSim wRenderWorld)) =
      prepare_raymarching_material wMaterials
        (extract_raymarching_material wSim wRenderWorld) :=
  have hnd : (wSim.ray_marching_query.map Prod.fst).Nodup := by decide
  ⟨hnd, pipeline_idempotent wSim wRenderWorld wMaterials hnd⟩

/-- C8: `RayMarchingMaterial::new()` returns exactly the documented
default instance: camera at origin facing −Z with unit horizontal and
vertical basis, aspect ratio 1, power 8, max_iterations 8, bailout 3,
num_steps 64, min_dist 0.002, max_dist 1000, zoom 1. -/
theorem rayMarchingMaterial_new_defaults :
    RayMarchingMaterial.new.camera_position = ⟨0, 0, 0⟩ ∧
    RayMarchingMaterial.new.camera_forward = ⟨0, 0, -1⟩ ∧
    RayMarchingMaterial.new.camera_horizontal = ⟨1, 0, 0⟩ ∧
    RayMarchingMaterial.new.camera_vertical = ⟨0, 1, 0⟩ ∧
    RayMarchingMaterial.new.aspect_ratio = 1 ∧
    RayMarchingMaterial.new.power = 8 ∧
    RayMarchingMaterial.new.max_iterations = 8 ∧
    RayMarchingMaterial.new.bailout = 3 ∧
    RayMarchingMaterial.new.num_steps = 64 ∧
    RayMarchingMaterial.new.min_dist = 0.002 ∧
    RayMarchingMaterial.new.min_dist = 1 / 500 ∧
    RayMarchingMaterial.new.max_dist = 1000 ∧
    RayMarchingMaterial.new.zoom = 1 := by
  refine ⟨rfl, rfl, rfl, rfl, rfl, rfl, rfl, rfl, rfl, rfl, ?_, rfl, rfl⟩
  norm_num [RayMarchingMaterial.new]

/-- C9: the extraction stage never mutates simulation-world state: as a
transition on the combined pipeline state it leaves the simulation world
unchanged, writing only the render-world mirror. -/
theorem extract_preserves_sim_world (st : PipelineState) :
    (extractStep st).sim = st.sim :=
  rfl

end RayMarching
